import Mathlib

/-!
Shallow embedding of the SKLL utility modules `skll/learner/utils.py` and
`skll/config/utils.py`, together with theorems settling claims about them.
Python machine floats are modelled by exact rationals, Python exceptions by
an `Except PyErr` result, and external library state (the filesystem, the
yaml parser, the sklearn scorer registry, the wrapped estimator) by
explicit function parameters.
-/

/-- Embedding of the Python exceptions raised by the two modules. -/
inductive PyErr : Type
  | valueError (msg : String)
  | typeError (msg : String)
  | ioError (errnum : Nat) (msg : String) (filename : String)
  deriving DecidableEq, Repr

/-- Decidable equality of `Except` results, so that concrete runs of the
embedded functions can be checked by `decide`. -/
instance {ε α : Type} [DecidableEq ε] [DecidableEq α] :
    DecidableEq (Except ε α) := fun x y =>
  match x, y with
  | .ok a, .ok b => decidable_of_iff (a = b) (by simp)
  | .ok _, .error _ => isFalse (by simp)
  | .error _, .ok _ => isFalse (by simp)
  | .error e, .error f => decidable_of_iff (e = f) (by simp)

/-- A one-dimensional numpy array as used for label arrays: its dtype is
either a string type or a numeric type, and the elements are modelled
exactly (rationals stand for machine floats). -/
inductive NpArray : Type
  | strs (l : List String)
  | nums (l : List ℚ)
  deriving DecidableEq, Repr

/-- Length of the underlying array. -/
def NpArray.len : NpArray → Nat
  | .strs l => l.length
  | .nums l => l.length

/-- `np.all(np.mod(numbers, 1) == 0)`: every element has fractional part
zero, i.e. every rational is an integer (denominator 1). -/
def npModOneAllZero (l : List ℚ) : Bool :=
  l.all (fun q => q.den == 1)

/-- `np.all(np.diff(numbers) == 1)`: every consecutive difference is
exactly 1 (`np.diff` of a length-`n` array has length `n - 1`). -/
def npDiffAllOne (l : List ℚ) : Bool :=
  (l.zip l.tail).all (fun p => p.2 - p.1 == 1)

/-- `contiguous_ints_or_floats` from `skll/learner/utils.py`.  The
`assert len(numbers) > 0` runs first and turns into a `ValueError`; on a
string array `np.mod` then raises a `TypeError`, re-raised with the fixed
message; otherwise the two numpy checks are conjoined. -/
def contiguous_ints_or_floats : NpArray → Except PyErr Bool
  | .strs l =>
      if l.length = 0 then .error (.valueError "Input cannot be empty.")
      else .error (.typeError "Input should only contain numbers.")
  | .nums l =>
      if l.length = 0 then .error (.valueError "Input cannot be empty.")
      else .ok (npModOneAllZero l && npDiffAllOne l)

/-- Modelled from the spec: the five metric families live in
`skll.utils.constants`, which is not part of this excerpt.  The resolver
only ever unions whole families, so each family is represented atomically
by one tag. -/
inductive MetricFamily : Type
  | classificationOnly
  | unweightedKappa
  | weightedKappa
  | correlation
  | regressionOnly
  deriving DecidableEq, Repr

/-- `CLASSIFICATION_ONLY_METRICS`, as an atomic family. -/
def CLASSIFICATION_ONLY_METRICS : Finset MetricFamily := {.classificationOnly}

/-- `UNWEIGHTED_KAPPA_METRICS`, as an atomic family. -/
def UNWEIGHTED_KAPPA_METRICS : Finset MetricFamily := {.unweightedKappa}

/-- `WEIGHTED_KAPPA_METRICS`, as an atomic family. -/
def WEIGHTED_KAPPA_METRICS : Finset MetricFamily := {.weightedKappa}

/-- `CORRELATION_METRICS`, as an atomic family. -/
def CORRELATION_METRICS : Finset MetricFamily := {.correlation}

/-- `REGRESSION_ONLY_METRICS`, as an atomic family. -/
def REGRESSION_ONLY_METRICS : Finset MetricFamily := {.regressionOnly}

/-- `get_acceptable_regression_metrics` from `skll/learner/utils.py`. -/
def get_acceptable_regression_metrics : Finset MetricFamily :=
  REGRESSION_ONLY_METRICS ∪ UNWEIGHTED_KAPPA_METRICS ∪
    WEIGHTED_KAPPA_METRICS ∪ CORRELATION_METRICS

/-- `get_acceptable_classification_metrics` from `skll/learner/utils.py`:
start from classification-only ∪ unweighted kappa; a string dtype adds
nothing; a numeric dtype adds the correlation metrics and then consults
`contiguous_ints_or_floats` (whose exceptions propagate) to decide whether
the weighted kappa metrics are added as well. -/
def get_acceptable_classification_metrics (label_array : NpArray) :
    Except PyErr (Finset MetricFamily) :=
  match label_array with
  | .strs _ => .ok (CLASSIFICATION_ONLY_METRICS ∪ UNWEIGHTED_KAPPA_METRICS)
  | .nums l =>
      match contiguous_ints_or_floats (.nums l) with
      | .error e => .error e
      | .ok contig =>
          if contig then
            .ok (CLASSIFICATION_ONLY_METRICS ∪ UNWEIGHTED_KAPPA_METRICS ∪
                  CORRELATION_METRICS ∪ WEIGHTED_KAPPA_METRICS)
          else
            .ok (CLASSIFICATION_ONLY_METRICS ∪ UNWEIGHTED_KAPPA_METRICS ∪
                  CORRELATION_METRICS)

/-! ## The `rescaled` decorator -/

/-- Python's `min(y)` on a list: `none` on the empty list (where Python
would raise), otherwise the least element. -/
def py_min : List ℚ → Option ℚ
  | [] => none
  | x :: xs => some (xs.foldl min x)

/-- Python's `max(y)` on a list. -/
def py_max : List ℚ → Option ℚ
  | [] => none
  | x :: xs => some (xs.foldl max x)

/-- `np.mean`: the arithmetic mean (0 on the empty list, where numpy
produces nan with a warning). -/
def np_mean (l : List ℚ) : ℚ :=
  l.sum / (l.length : ℚ)

/-- `np.var`: the population variance. -/
def np_var (l : List ℚ) : ℚ :=
  ((l.map (fun x => (x - np_mean l) ^ 2)).sum) / (l.length : ℚ)

/-- `np.std = sqrt(np.var)`.  The floating-point square root is abstracted
as an explicit function parameter; theorems only use it where the code's
behaviour does not depend on its exact values. -/
def np_std (sqrt : ℚ → ℚ) (l : List ℚ) : ℚ :=
  sqrt (np_var l)

/-- The per-instance state installed by the `rescaled` decorator's
`init`: the two flags and the six statistics, all statistics starting out
as `None`. -/
structure RescaledRegressor : Type where
  constrain : Bool
  rescale : Bool
  y_min : Option ℚ
  y_max : Option ℚ
  yhat_mean : Option ℚ
  yhat_sd : Option ℚ
  y_mean : Option ℚ
  y_sd : Option ℚ
  deriving DecidableEq, Repr

/-- The decorator's `init`: stores the two flags and sets all six
statistics to `None` (the original estimator's own `__init__` acts on
state outside this record). -/
def rescaled_init (constrain rescale : Bool) : RescaledRegressor :=
  { constrain := constrain, rescale := rescale,
    y_min := none, y_max := none,
    yhat_mean := none, yhat_sd := none, y_mean := none, y_sd := none }

/-- The decorator's `fit` wrapper.  `orig_predict` is the wrapped
estimator's `predict` after `orig_fit` has run (the underlying model's
state is external to this record), `X` the training input and `y` the
training labels.  If `constrain`, the training-label min and max are
recorded; if `rescale`, the mean/SD of the training predictions and of the
training labels are recorded. -/
def rescaled_fit {α : Type} (sqrt : ℚ → ℚ) (orig_predict : α → List ℚ)
    (self : RescaledRegressor) (X : α) (y : List ℚ) : RescaledRegressor :=
  let self :=
    if self.constrain then
      { self with y_min := py_min y, y_max := py_max y }
    else self
  if self.rescale then
    let y_hat := orig_predict X
    { self with
        yhat_mean := some (np_mean y_hat),
        yhat_sd := some (np_std sqrt y_hat),
        y_mean := some (np_mean y),
        y_sd := some (np_std sqrt y) }
  else self

/-- The decorator's `predict` wrapper: raw predictions from the wrapped
estimator, then the z-score rescaling if `rescale`, then the elementwise
clamp `max(y_min, min(y_max, pred))` if `constrain`.  A `None` statistic
used in arithmetic would raise in Python, modelled by the `Option` bind. -/
def rescaled_predict {α : Type} (orig_predict : α → List ℚ)
    (self : RescaledRegressor) (X : α) : Option (List ℚ) := do
  let res := orig_predict X
  let res ←
    if self.rescale then do
      let yhat_mean ← self.yhat_mean
      let yhat_sd ← self.yhat_sd
      let y_sd ← self.y_sd
      let y_mean ← self.y_mean
      pure (res.map (fun r => (r - yhat_mean) / yhat_sd * y_sd + y_mean))
    else pure res
  if self.constrain then do
    let y_min ← self.y_min
    let y_max ← self.y_max
    pure (res.map (fun pred => max y_min (min y_max pred)))
  else pure res

/-- The class-level facts about an estimator class that the `rescaled`
decorator inspects: its `_estimator_type` and whether it already has a
`rescale` attribute (which decoration later sets to `True`). -/
structure EstimatorClass : Type where
  estimator_type : String
  hasattr_rescale : Bool
  deriving DecidableEq, Repr

/-- The `rescaled` class decorator from `skll/learner/utils.py`: an
already-decorated class (one with a `rescale` attribute) is returned
unchanged; otherwise a classifier raises `ValueError` at decoration time;
otherwise the class is returned with the wrapper methods installed and
`rescale = True` set. -/
def rescaled (cls : EstimatorClass) : Except PyErr EstimatorClass :=
  if cls.hasattr_rescale then .ok cls
  else if cls.estimator_type == "classifier" then
    .error (.valueError "Classifiers cannot be rescaled. Only regressors can.")
  else .ok { cls with hasattr_rescale := true }

/-! ## `skll/config/utils.py` -/

/-- `fix_json` from `skll/config/utils.py`: normalize capitalized boolean
literals and single quotes in a JSON-style string. -/
def fix_json (json_string : String) : String :=
  ((json_string.replace "True" "true").replace "False" "false").replace
    "\x27" "\x22"

/-- The dynamic value produced by `yaml.safe_load`: either a Python list
of strings (the only shape the validator accepts) or some other value,
carrying the `type(...)` description used in the error message. -/
inductive PyVal : Type
  | list (l : List String)
  | scalar (typeDesc : String)
  deriving DecidableEq, Repr

/-- Python's `str` of a list of strings, for the invalid-metrics error
message. -/
def py_str_list (l : List String) : String :=
  "[" ++ String.intercalate ", " (l.map (fun m => "\x27" ++ m ++ "\x27")) ++ "]"

/-- `_parse_and_validate_metrics` from `skll/config/utils.py`.  The
external `yaml.safe_load` parser is passed as a function, and the external
sklearn `SCORERS` registry as a list of known names.  The parsed value
must be a list; the deprecated `mean_squared_error` is rejected; any names
missing from the registry are rejected; otherwise the parsed list itself
is returned. -/
def _parse_and_validate_metrics (scorers : List String)
    (yaml_safe_load : String → PyVal)
    (metrics : String) (option_name : String) : Except PyErr (List String) :=
  match yaml_safe_load (fix_json metrics) with
  | .scalar typeDesc =>
      .error (.typeError
        (option_name ++ " should be a list, not a " ++ typeDesc ++ "."))
  | .list ms =>
      if ms.contains "mean_squared_error" then
        .error (.valueError
          ("The metric \"mean_squared_error\" is no longer supported." ++
            " please use the metric \"neg_mean_squared_error\" instead."))
      else
        let invalid_metrics := ms.filter (fun m => !(scorers.contains m))
        if invalid_metrics.isEmpty then .ok ms
        else
          .error (.valueError
            ("Invalid metric(s) " ++ py_str_list invalid_metrics ++
              " specified for " ++ option_name))

/-- `posixpath.isabs`: the path starts with a slash. -/
def isabs (s : String) : Bool :=
  s.data.head? == some '/'

/-- `posixpath.join` for two components (the configuration directory and a
relative file path). -/
def path_join (a b : String) : String :=
  if isabs b then b
  else if a == "" || a.data.getLast? == some '/' then a ++ b
  else a ++ "/" ++ b

/-- Python's `path.split('/')` on the character list: splitting at every
slash, keeping empty components (so `"" ↦ [""]`, `"/a" ↦ ["", "a"]`). -/
def split_on_slash : List Char → List (List Char)
  | [] => [[]]
  | '/' :: rest => [] :: split_on_slash rest
  | c :: rest =>
      match split_on_slash rest with
      | [] => [[c]]
      | h :: t => (c :: h) :: t

/-- Python's `'/'.join(comps)` on character lists. -/
def join_slash : List (List Char) → List Char
  | [] => []
  | [c] => c
  | c :: rest => c ++ '/' :: join_slash rest

/-- The leading-slash count of `posixpath.normpath`: one leading slash is
preserved, exactly two are preserved as two, three or more collapse to
one, none means a relative path. -/
def leading_slashes (data : List Char) : Nat :=
  if data.head? = some '/' then
    if (data.drop 1).head? = some '/' then
      if (data.drop 2).head? = some '/' then 1 else 2
    else 1
  else 0

/-- The component-processing loop of `posixpath.normpath`: drop empty and
`.` components; a `..` cancels a preceding real component, is kept at the
front of a relative path, and is dropped at the root of an absolute
path. -/
def normpath_comps (initial_slashes : Nat) (comps : List (List Char)) :
    List (List Char) :=
  comps.foldl
    (fun new_comps comp =>
      if comp == [] || comp == ['.'] then new_comps
      else if comp != ['.', '.'] ||
          (initial_slashes == 0 && new_comps.isEmpty) ||
          (!new_comps.isEmpty && new_comps.getLast? == some ['.', '.']) then
        new_comps ++ [comp]
      else if !new_comps.isEmpty then new_comps.dropLast
      else new_comps) []

/-- `posixpath.normpath`: empty path becomes `.`; the leading slashes are
preserved as by `leading_slashes`; the components are normalized and
rejoined; an empty result becomes `.`. -/
def normpath (path : String) : String :=
  if path == "" then "."
  else
    let initial_slashes := leading_slashes path.data
    let new_comps := normpath_comps initial_slashes (split_on_slash path.data)
    let p : String :=
      ⟨List.replicate initial_slashes '/' ++ join_slash new_comps⟩
    if p == "" then "." else p

/-- `locate_file` from `skll/config/utils.py`.  The filesystem is
abstracted as the predicate `path_exists` (modelling `os.path.exists`).
An empty path returns the empty string; an absolute path is used as-is; a
relative path is joined to the configuration directory and normalized; a
missing resolved path raises `IOError(errno.ENOENT, "File does not
exist", path)` (ENOENT = 2). -/
def locate_file (path_exists : String → Bool)
    (file_path config_dir : String) : Except PyErr String :=
  if file_path == "" then .ok ""
  else
    let path_to_check :=
      if isabs file_path then file_path
      else normpath (path_join config_dir file_path)
    if path_exists path_to_check then .ok path_to_check
    else .error (.ioError 2 "File does not exist" path_to_check)

/-! ## `Densifier` -/

/-- The stateless `Densifier` pipeline stage. -/
inductive Densifier : Type
  | mk
  deriving DecidableEq, Repr

/-- What a pipeline-stage call can hand back in Python's dynamic typing:
the estimator object itself, or a data matrix. -/
inductive PipelineOutput (D : Type) : Type
  | estimator (d : Densifier)
  | data (m : D)
  deriving DecidableEq, Repr

/-- `Densifier.fit`: returns `self`, ignoring the input. -/
def Densifier.fit (M : Type) (self : Densifier) (X : M) (y : Option Unit) :
    Densifier :=
  self

/-- `Densifier.fit_transform` as written in the source: it returns `self`,
not the densified matrix.  `todense` (the sparse-to-dense conversion the
`transform` method would apply) is a parameter of the embedding. -/
def Densifier.fit_transform (M D : Type) (todense : M → D)
    (self : Densifier) (X : M) (y : Option Unit) : PipelineOutput D :=
  PipelineOutput.estimator self

/-- `Densifier.transform`: returns `X.todense()`. -/
def Densifier.transform (M D : Type) (todense : M → D)
    (self : Densifier) (X : M) : D :=
  todense X

/-! ## `FilteredLeaveOneGroupOut` -/

/-- The state of a `FilteredLeaveOneGroupOut` iterator: the keep-set of
example IDs, the row-index-to-example-ID list, and the one-time warning
flag. -/
structure FilteredLeaveOneGroupOut (ID : Type) : Type where
  keep : List ID
  example_ids : List ID
  _warned : Bool

/-- The filter predicate `self.example_ids[i] in self.keep` applied to a
row index (out-of-range indices, which would raise in Python, count as not
kept; the raw splits of the wrapped iterator are always in range). -/
def flogo_keep_index {ID : Type} [DecidableEq ID]
    (self : FilteredLeaveOneGroupOut ID) (i : Nat) : Bool :=
  match self.example_ids.get? i with
  | some x => self.keep.contains x
  | none => false

/-- `FilteredLeaveOneGroupOut.split`.  The wrapped sklearn
`LeaveOneGroupOut.split` generator is external, so its output is taken as
the input list `raw_splits`.  Each raw train/test pair is filtered by the
keep-set; the warning fires (and sets `_warned`) the first time filtering
removes any index.  Returns the yielded pairs, the final iterator state,
and how many warnings were emitted. -/
def FilteredLeaveOneGroupOut.split {ID : Type} [DecidableEq ID] :
    FilteredLeaveOneGroupOut ID → List (List Nat × List Nat) →
      List (List Nat × List Nat) × FilteredLeaveOneGroupOut ID × Nat
  | self, [] => ([], self, 0)
  | self, pair :: rest =>
      let train_len := pair.1.length
      let test_len := pair.2.length
      let train_index := pair.1.filter (flogo_keep_index self)
      let test_index := pair.2.filter (flogo_keep_index self)
      let fired := !self._warned &&
        (train_len != train_index.length || test_len != test_index.length)
      let self2 := if fired then { self with _warned := true } else self
      let rec_result := FilteredLeaveOneGroupOut.split self2 rest
      ((train_index, test_index) :: rec_result.1, rec_result.2.1,
        (if fired then 1 else 0) + rec_result.2.2)

/-! ## `train_and_score` -/

/-- The slice of a SKLL `FeatureSet` that `train_and_score` reads: its
label column. -/
structure FeatureSet (L : Type) : Type where
  labels : List L

/-- The slice of a SKLL `Learner` that `train_and_score` reads: whether
its model is a classifier, its label list, and its label-to-index
mapping (an insertion-ordered dict). -/
structure Learner (L : Type) : Type where
  is_classifier : Bool
  label_list : List L
  label_dict : List (L × Nat)

/-- Modelled from the spec: `Learner.train` lives in `skll/learner/`,
which is not part of this excerpt.  Per the spec it trains the underlying
model on the training set (the fitted model itself is represented by the
`learner_predict` parameter of `train_and_score`); the spec describes no
change to the learner's label bookkeeping, so the record is returned
unchanged. -/
def Learner.train {L : Type} (learner : Learner L)
    (train_examples : FeatureSet L) (grid_search shuffle : Bool) :
    Learner L :=
  learner

/-- `np.unique(...).tolist()`: the distinct values in sorted order. -/
def np_unique {L : Type} [DecidableEq L] [LinearOrder L] (l : List L) :
    List L :=
  l.dedup.insertionSort (fun a b => a ≤ b)

/-- Setting one key of an insertion-ordered dict: an existing key keeps
its position with the value overwritten, a new key is appended. -/
def dict_set {L : Type} [DecidableEq L] (d : List (L × Nat)) (k : L)
    (v : Nat) : List (L × Nat) :=
  if d.any (fun p => p.1 == k) then
    d.map (fun p => if p.1 == k then (k, v) else p)
  else d ++ [(k, v)]

/-- Python's `dict.update`: fold `dict_set` over the new entries. -/
def dict_update {L : Type} [DecidableEq L] (d u : List (L × Nat)) :
    List (L × Nat) :=
  u.foldl (fun acc p => dict_set acc p.1 p.2) d

/-- Dict lookup (`d[k]`), `none` where Python would raise `KeyError`. -/
def dict_get {L : Type} [DecidableEq L] (d : List (L × Nat)) (k : L) :
    Option Nat :=
  (d.find? (fun p => p.1 == k)).map (fun p => p.2)

/-- `train_and_score` from `skll/learner/utils.py`.  The external pieces
are parameters: `learner_predict` (the learner's `predict`),
`use_score_func_idx` and `use_score_func_raw` (the external
`use_score_func` applied to index-space and raw labels respectively;
predictions have an abstract type `P`).  For a classifier, unseen test
labels get fresh indices starting at `len(label_list)` and are merged into
a copy of `label_dict`; both label columns are mapped through the merged
dict before scoring.  Returns the learner after the call together with
the train and test scores. -/
def train_and_score {L P : Type} [DecidableEq L] [LinearOrder L]
    (learner_predict : Learner L → FeatureSet L → List P)
    (use_score_func_idx : String → List (Option Nat) → List P → ℚ)
    (use_score_func_raw : String → List L → List P → ℚ)
    (learner : Learner L) (train_examples test_examples : FeatureSet L)
    (metric : String) : Learner L × ℚ × ℚ :=
  let learner := learner.train train_examples false false
  let train_predictions := learner_predict learner train_examples
  let test_predictions := learner_predict learner test_examples
  if learner.is_classifier then
    let test_label_list := np_unique test_examples.labels
    let unseen_test_label_list :=
      test_label_list.filter (fun lab => !(learner.label_list.contains lab))
    let unseen_label_dict :=
      unseen_test_label_list.enum.map
        (fun p => (p.2, learner.label_list.length + p.1))
    let train_and_test_label_dict :=
      dict_update learner.label_dict unseen_label_dict
    let train_labels :=
      train_examples.labels.map (dict_get train_and_test_label_dict)
    let test_labels :=
      test_examples.labels.map (dict_get train_and_test_label_dict)
    (learner,
      use_score_func_idx metric train_labels train_predictions,
      use_score_func_idx metric test_labels test_predictions)
  else
    (learner,
      use_score_func_raw metric train_examples.labels train_predictions,
      use_score_func_raw metric test_examples.labels test_predictions)

/-! ## Helper lemmas -/

theorem npModOneAllZero_iff (l : List ℚ) :
    npModOneAllZero l = true ↔ ∀ q ∈ l, q.den = 1 := by
  simp [npModOneAllZero, List.all_eq_true]

theorem npDiffAllOne_iff (l : List ℚ) :
    npDiffAllOne l = true ↔ List.Chain' (fun p q => q - p = (1 : ℚ)) l := by
  induction l with
  | nil => simp [npDiffAllOne]
  | cons a t ih =>
    cases t with
    | nil => simp [npDiffAllOne]
    | cons b t2 =>
      rw [List.chain'_cons, ← ih]
      simp [npDiffAllOne, List.all_eq_true]

/-! ## Claim theorems -/

/-- C3: `contiguous_ints_or_floats` raises a ValueError on an empty input,
raises a TypeError on a nonempty non-numeric input, and on a nonempty
numeric input returns true exactly when every element has fractional part
zero and every consecutive difference is exactly 1; in particular
`[1,2,3]` and `[4.0,5.0,6.0]` give true and `[1.1,1.2,1.3]` gives
false. -/
theorem C3_contiguous_ints_or_floats :
    (∀ a : NpArray, a.len = 0 →
        contiguous_ints_or_floats a =
          .error (PyErr.valueError "Input cannot be empty.")) ∧
    (∀ s : List String, s ≠ [] →
        contiguous_ints_or_floats (.strs s) =
          .error (PyErr.typeError "Input should only contain numbers.")) ∧
    (∀ l : List ℚ, l ≠ [] →
        (contiguous_ints_or_floats (.nums l) = .ok true ↔
          (∀ q ∈ l, q.den = 1) ∧
            List.Chain' (fun p q => q - p = (1 : ℚ)) l)) ∧
    contiguous_ints_or_floats (.nums [1, 2, 3]) = .ok true ∧
    contiguous_ints_or_floats (.nums [4, 5, 6]) = .ok true ∧
    contiguous_ints_or_floats (.nums [11/10, 12/10, 13/10]) = .ok false := by
  refine ⟨?_, ?_, ?_,
    by simp [contiguous_ints_or_floats, npModOneAllZero, npDiffAllOne]; norm_num,
    by simp [contiguous_ints_or_floats, npModOneAllZero, npDiffAllOne]; norm_num,
    by simp [contiguous_ints_or_floats, npModOneAllZero, npDiffAllOne]; norm_num⟩
  · intro a ha
    cases a with
    | strs l =>
        rw [NpArray.len] at ha
        simp [contiguous_ints_or_floats, ha]
    | nums l =>
        rw [NpArray.len] at ha
        simp [contiguous_ints_or_floats, ha]
  · intro s hs
    have h0 : ¬ (s.length = 0) := by simpa [List.length_eq_zero] using hs
    simp [contiguous_ints_or_floats, h0]
  · intro l hl
    have h0 : ¬ (l.length = 0) := by simpa [List.length_eq_zero] using hl
    rw [contiguous_ints_or_floats]
    simp only [h0, if_false, if_neg h0]
    rw [show ((Except.ok (npModOneAllZero l && npDiffAllOne l) :
          Except PyErr Bool) = .ok true ↔
        (npModOneAllZero l && npDiffAllOne l) = true) from by
      constructor
      · intro h; exact Except.ok.inj h
      · intro h; rw [h]]
    rw [Bool.and_eq_true, npModOneAllZero_iff, npDiffAllOne_iff]

/-- C3 witness: the claim's concrete error cases, obtained from the
theorem at the inputs `["a","b"]` and `[]`. -/
theorem C3_contiguous_ints_or_floats_witness :
    contiguous_ints_or_floats (.strs ["a", "b"]) =
      .error (PyErr.typeError "Input should only contain numbers.") ∧
    contiguous_ints_or_floats (.nums []) =
      .error (PyErr.valueError "Input cannot be empty.") :=
  ⟨C3_contiguous_ints_or_floats.2.1 ["a", "b"] (by decide),
   C3_contiguous_ints_or_floats.1 (NpArray.nums []) (by decide)⟩

/-- C1 counterexample: the empty numeric label array vacuously satisfies
the claim's contiguity condition (every fractional part zero, every
consecutive difference 1), so the claim requires the resolver to return
the base set with correlation and weighted-agreement metrics added; the
code instead propagates the contiguity check's ValueError and returns no
set at all. -/
theorem C1_counterexample :
    get_acceptable_classification_metrics (NpArray.nums []) =
      .error (PyErr.valueError "Input cannot be empty.") ∧
    (∀ q ∈ ([] : List ℚ), q.den = 1) ∧
    List.Chain' (fun p q => q - p = (1 : ℚ)) [] := by
  refine ⟨rfl, ?_, ?_⟩ <;> simp

/-- C1 (amended): for every sorted array of unique labels, the resolver
returns exactly the base set (classification-only ∪ unweighted-agreement)
when the label element type is textual; when the element type is numeric
and the array is nonempty it additionally includes the correlation
metrics, and it includes the weighted-agreement metrics if and only if the
labels are contiguous (every fractional part zero and every consecutive
difference exactly 1).  (An empty numeric array instead propagates the
contiguity check's ValueError.) -/
theorem C1_get_acceptable_classification_metrics (a : NpArray) :
    (∀ s, a = NpArray.strs s →
        get_acceptable_classification_metrics a =
          .ok (CLASSIFICATION_ONLY_METRICS ∪ UNWEIGHTED_KAPPA_METRICS)) ∧
    (∀ l, a = NpArray.nums l → l ≠ [] →
        ((∀ q ∈ l, q.den = 1) ∧
            List.Chain' (fun p q => q - p = (1 : ℚ)) l →
          get_acceptable_classification_metrics a =
            .ok (CLASSIFICATION_ONLY_METRICS ∪ UNWEIGHTED_KAPPA_METRICS ∪
                  CORRELATION_METRICS ∪ WEIGHTED_KAPPA_METRICS)) ∧
        (¬ ((∀ q ∈ l, q.den = 1) ∧
            List.Chain' (fun p q => q - p = (1 : ℚ)) l) →
          get_acceptable_classification_metrics a =
            .ok (CLASSIFICATION_ONLY_METRICS ∪ UNWEIGHTED_KAPPA_METRICS ∪
                  CORRELATION_METRICS))) := by
  constructor
  · rintro s rfl
    rfl
  · rintro l rfl hl
    have h0 : ¬ (l.length = 0) := by simpa [List.length_eq_zero] using hl
    constructor
    · intro h
      have hb : (npModOneAllZero l && npDiffAllOne l) = true := by
        rw [Bool.and_eq_true, npModOneAllZero_iff, npDiffAllOne_iff]
        exact ⟨h.1, h.2⟩
      simp [get_acceptable_classification_metrics,
        contiguous_ints_or_floats, h0, hb]
    · intro h
      have hb : (npModOneAllZero l && npDiffAllOne l) = false := by
        rw [Bool.eq_false_iff]
        intro hcontra
        rw [Bool.and_eq_true, npModOneAllZero_iff, npDiffAllOne_iff] at hcontra
        exact h hcontra
      simp [get_acceptable_classification_metrics,
        contiguous_ints_or_floats, h0, hb]

/-- C1 witness: on the contiguous numeric label array `[1,2,3]` the
resolver returns all four classification families, as the amended claim
states. -/
theorem C1_get_acceptable_classification_metrics_witness :
    get_acceptable_classification_metrics (NpArray.nums [1, 2, 3]) =
      .ok (CLASSIFICATION_ONLY_METRICS ∪ UNWEIGHTED_KAPPA_METRICS ∪
            CORRELATION_METRICS ∪ WEIGHTED_KAPPA_METRICS) :=
  ((C1_get_acceptable_classification_metrics
      (NpArray.nums [1, 2, 3])).2 [1, 2, 3] rfl (by simp)).1
    (by constructor
        · intro q hq
          fin_cases hq <;> norm_num
        · norm_num [List.chain'_cons])

/-- C4: any configuration string that parses to a list of metric names in
which every name is in the scorer registry and none is the deprecated
`mean_squared_error` is returned by the validator as that same list,
order preserved, unchanged. -/
theorem C4_parse_and_validate_metrics (scorers : List String)
    (yaml_safe_load : String → PyVal) (metrics option_name : String)
    (l : List String)
    (hparse : yaml_safe_load (fix_json metrics) = PyVal.list l)
    (hvalid : ∀ m ∈ l, scorers.contains m = true)
    (hdep : "mean_squared_error" ∉ l) :
    _parse_and_validate_metrics scorers yaml_safe_load metrics option_name =
      Except.ok l := by
  have hall : ∀ a ∈ l, a ∈ scorers := fun a ha => by simpa using hvalid a ha
  simp [_parse_and_validate_metrics, hparse, hdep, hall]
  exact hall

/-- C4 witness: a concrete registry and parse giving back the two-element
list in its original order. -/
theorem C4_parse_and_validate_metrics_witness :
    _parse_and_validate_metrics ["accuracy", "f1"]
        (fun _ => PyVal.list ["f1", "accuracy"])
        "[\x27f1\x27, \x27accuracy\x27]" "objectives" =
      Except.ok ["f1", "accuracy"] :=
  C4_parse_and_validate_metrics ["accuracy", "f1"]
    (fun _ => PyVal.list ["f1", "accuracy"])
    "[\x27f1\x27, \x27accuracy\x27]" "objectives" ["f1", "accuracy"]
    rfl (by decide) (by decide)

/-- C6 counterexample: a classifier class that already carries a `rescale`
attribute hits the decorator's idempotency guard first and is returned
unchanged, so applying `rescaled` to a classifier class does not raise a
validation error every time. -/
theorem C6_counterexample :
    rescaled { estimator_type := "classifier", hasattr_rescale := true } =
      Except.ok { estimator_type := "classifier", hasattr_rescale := true } :=
  rfl

/-- C6 (amended): applying the `rescaled` decorator to a classifier class
that does not already have a `rescale` attribute raises a ValueError at
decoration time, inside `rescaled` itself, before any wrapped `fit` or
`predict` exists.  (A class that already has a `rescale` attribute is
returned unchanged by the idempotency guard, which runs before the
classifier check.) -/
theorem C6_rescaled_classifier_raises (cls : EstimatorClass)
    (htype : cls.estimator_type = "classifier")
    (hattr : cls.hasattr_rescale = false) :
    rescaled cls =
      Except.error (PyErr.valueError
        "Classifiers cannot be rescaled. Only regressors can.") := by
  simp [rescaled, hattr, htype]

/-- C6 witness: the amended claim at a concrete undecorated classifier
class. -/
theorem C6_rescaled_classifier_raises_witness :
    rescaled { estimator_type := "classifier", hasattr_rescale := false } =
      Except.error (PyErr.valueError
        "Classifiers cannot be rescaled. Only regressors can.") :=
  C6_rescaled_classifier_raises
    { estimator_type := "classifier", hasattr_rescale := false } rfl rfl

/-- C9: for every input, `Densifier.fit_transform` returns the `Densifier`
instance itself and never the densified matrix, even though
`Densifier.transform` on the same input returns the densified matrix; so
the standard `fit_transform` pipeline entry point hands back no densified
data. -/
theorem C9_densifier_fit_transform :
    (∀ (M D : Type) (todense : M → D) (self : Densifier) (X : M)
        (y : Option Unit),
        Densifier.fit_transform M D todense self X y =
          PipelineOutput.estimator self ∧
        ∀ m : D, Densifier.fit_transform M D todense self X y ≠
          PipelineOutput.data m) ∧
    (∀ (M D : Type) (todense : M → D) (self : Densifier) (X : M),
        Densifier.transform M D todense self X = todense X) := by
  refine ⟨fun M D todense self X y => ⟨rfl, fun m h => ?_⟩,
    fun M D todense self X => rfl⟩
  exact PipelineOutput.noConfusion h

/-- Updating only the warning flag does not change which row indices the
filter keeps. -/
theorem flogo_keep_index_warned {ID : Type} [DecidableEq ID]
    (self : FilteredLeaveOneGroupOut ID) (b : Bool) :
    flogo_keep_index { self with _warned := b } = flogo_keep_index self :=
  rfl

/-- The yielded pairs of `FilteredLeaveOneGroupOut.split` are exactly the
raw pairs filtered through the keep-set, independently of the warning
bookkeeping threaded through the fold. -/
theorem flogo_split_fst {ID : Type} [DecidableEq ID]
    (raw : List (List Nat × List Nat)) :
    ∀ self : FilteredLeaveOneGroupOut ID,
      (FilteredLeaveOneGroupOut.split self raw).1 =
        raw.map (fun p =>
          (p.1.filter (flogo_keep_index self),
           p.2.filter (flogo_keep_index self))) := by
  induction raw with
  | nil => intro self; rfl
  | cons pair rest ih =>
    intro self
    have hkeep : ∀ b : Bool,
        flogo_keep_index
          (if b then { self with _warned := true } else self) =
          flogo_keep_index self := by
      intro b; cases b <;> rfl
    simp only [FilteredLeaveOneGroupOut.split, List.map_cons]
    rw [ih, hkeep]

/-- C8: every train/test pair yielded by the filtered group-holdout
splitter is the corresponding raw pair of the underlying
leave-one-group-out split restricted, in original order, to the indices
whose example ID lies in the keep-set; concretely, with example IDs
`[A,B,C,D]` and keep-set `{A,C}`, the raw pair `([0,1],[2,3])` is filtered
to `([0],[2])`. -/
theorem C8_filtered_leave_one_group_out_split :
    (∀ (ID : Type) (inst : DecidableEq ID)
        (self : FilteredLeaveOneGroupOut ID)
        (raw : List (List Nat × List Nat)),
        (FilteredLeaveOneGroupOut.split self raw).1 =
          raw.map (fun p =>
            (p.1.filter (flogo_keep_index self),
             p.2.filter (flogo_keep_index self)))) ∧
    (FilteredLeaveOneGroupOut.split
        { keep := ["A", "C"], example_ids := ["A", "B", "C", "D"],
          _warned := false }
        [([0, 1], [2, 3])]).1 = [([0], [2])] := by
  constructor
  · intro ID inst self raw
    exact flogo_split_fst raw self
  · decide

/-- C7: `train_and_score` never mutates the learner's own label-to-index
mapping: unseen test labels are merged into a copy
(`train_and_test_label_dict`), and the learner that exists after the call
is exactly the learner from before the call, its `label_dict` included. -/
theorem C7_train_and_score_preserves_label_dict
    {L P : Type} [DecidableEq L] [LinearOrder L]
    (learner_predict : Learner L → FeatureSet L → List P)
    (use_score_func_idx : String → List (Option Nat) → List P → ℚ)
    (use_score_func_raw : String → List L → List P → ℚ)
    (learner : Learner L) (train_examples test_examples : FeatureSet L)
    (metric : String) :
    (train_and_score learner_predict use_score_func_idx use_score_func_raw
        learner train_examples test_examples metric).1 = learner ∧
    (train_and_score learner_predict use_score_func_idx use_score_func_raw
        learner train_examples test_examples metric).1.label_dict =
      learner.label_dict := by
  constructor <;>
    · rw [train_and_score]
      by_cases h : learner.is_classifier = true <;> simp [Learner.train, h]

/-- A `min`-fold is bounded by its initial value. -/
theorem foldl_min_le_init (xs : List ℚ) (x : ℚ) : xs.foldl min x ≤ x := by
  induction xs generalizing x with
  | nil => exact le_refl x
  | cons a t ih =>
    exact le_trans (ih (min x a)) (min_le_left x a)

/-- A `min`-fold is bounded by every list element. -/
theorem foldl_min_le_mem (xs : List ℚ) (x v : ℚ) (hv : v ∈ xs) :
    xs.foldl min x ≤ v := by
  induction xs generalizing x with
  | nil => cases hv
  | cons a t ih =>
    rcases List.mem_cons.mp hv with rfl | hv'
    · exact le_trans (foldl_min_le_init t (min x v)) (min_le_right x v)
    · exact ih (min x a) hv'

/-- A `min`-fold is attained: it is the initial value or a list element. -/
theorem foldl_min_mem (xs : List ℚ) (x : ℚ) : xs.foldl min x ∈ x :: xs := by
  induction xs generalizing x with
  | nil => exact List.mem_singleton.mpr rfl
  | cons a t ih =>
    have h := ih (min x a)
    rw [List.foldl_cons]
    rcases List.mem_cons.mp h with h1 | h1
    · rw [h1]
      rcases min_choice x a with hc | hc <;> rw [hc] <;> simp
    · exact List.mem_cons_of_mem x (List.mem_cons_of_mem a h1)

/-- A `max`-fold dominates its initial value. -/
theorem init_le_foldl_max (xs : List ℚ) (x : ℚ) : x ≤ xs.foldl max x := by
  induction xs generalizing x with
  | nil => exact le_refl x
  | cons b u ihu =>
    exact le_trans (le_max_left x b) (ihu (max x b))

/-- A `max`-fold dominates every list element. -/
theorem mem_le_foldl_max (xs : List ℚ) (x v : ℚ) (hv : v ∈ xs) :
    v ≤ xs.foldl max x := by
  induction xs generalizing x with
  | nil => cases hv
  | cons a t ih =>
    rcases List.mem_cons.mp hv with rfl | hv'
    · exact le_trans (le_max_right x v) (init_le_foldl_max t (max x v))
    · exact ih (max x a) hv'

/-- `rescaled_fit` leaves the two flags untouched. -/
theorem rescaled_fit_flags {α : Type} (sqrt : ℚ → ℚ)
    (orig_predict : α → List ℚ) (self : RescaledRegressor) (X : α)
    (y : List ℚ) :
    (rescaled_fit sqrt orig_predict self X y).constrain = self.constrain ∧
    (rescaled_fit sqrt orig_predict self X y).rescale = self.rescale := by
  rw [rescaled_fit]
  by_cases hc : self.constrain = true <;>
    by_cases hr : self.rescale = true <;>
      simp [hc, hr]

/-- With `constrain` set, `rescaled_fit` records the training-label min
and max, whatever the `rescale` flag does afterwards. -/
theorem rescaled_fit_y_min_max {α : Type} (sqrt : ℚ → ℚ)
    (orig_predict : α → List ℚ) (self : RescaledRegressor) (X : α)
    (y : List ℚ) (hc : self.constrain = true) :
    (rescaled_fit sqrt orig_predict self X y).y_min = py_min y ∧
    (rescaled_fit sqrt orig_predict self X y).y_max = py_max y := by
  rw [rescaled_fit]
  by_cases hr : self.rescale = true <;> simp [hc, hr]

/-- With `rescale` set, `rescaled_fit` records the four distribution
statistics. -/
theorem rescaled_fit_rescale_stats {α : Type} (sqrt : ℚ → ℚ)
    (orig_predict : α → List ℚ) (self : RescaledRegressor) (X : α)
    (y : List ℚ) (hr : self.rescale = true) :
    (rescaled_fit sqrt orig_predict self X y).yhat_mean =
      some (np_mean (orig_predict X)) ∧
    (rescaled_fit sqrt orig_predict self X y).yhat_sd =
      some (np_std sqrt (orig_predict X)) ∧
    (rescaled_fit sqrt orig_predict self X y).y_mean = some (np_mean y) ∧
    (rescaled_fit sqrt orig_predict self X y).y_sd =
      some (np_std sqrt y) := by
  rw [rescaled_fit]
  by_cases hc : self.constrain = true <;> simp [hc, hr]

/-- With `constrain` set and the min/max statistics present, the decorated
`predict` succeeds and every returned value lies in `[lo, hi]`. -/
theorem rescaled_predict_constrain_mem {α : Type} (orig_predict : α → List ℚ)
    (s : RescaledRegressor) (X : α) (lo hi : ℚ)
    (hc : s.constrain = true) (hmin : s.y_min = some lo)
    (hmax : s.y_max = some hi) (hlohi : lo ≤ hi)
    (hstats : s.rescale = true →
      (∃ a, s.yhat_mean = some a) ∧ (∃ a, s.yhat_sd = some a) ∧
      (∃ a, s.y_mean = some a) ∧ (∃ a, s.y_sd = some a)) :
    ∃ out, rescaled_predict orig_predict s X = some out ∧
      ∀ v ∈ out, lo ≤ v ∧ v ≤ hi := by
  have hbound : ∀ (l : List ℚ) (v : ℚ),
      v ∈ l.map (fun pred => max lo (min hi pred)) → lo ≤ v ∧ v ≤ hi := by
    intro l v hv
    simp only [List.mem_map] at hv
    obtain ⟨r, _, rfl⟩ := hv
    exact ⟨le_max_left _ _, max_le hlohi (min_le_left _ _)⟩
  cases hr : s.rescale with
  | false =>
    refine ⟨(orig_predict X).map (fun pred => max lo (min hi pred)),
      ?_, hbound _⟩
    simp [rescaled_predict, hr, hc, hmin, hmax]
  | true =>
    obtain ⟨⟨a, ha⟩, ⟨b, hb⟩, ⟨c, hc2⟩, ⟨d, hd⟩⟩ := hstats hr
    refine ⟨((orig_predict X).map (fun r => (r - a) / b * d + c)).map
      (fun pred => max lo (min hi pred)), ?_, hbound _⟩
    simp [rescaled_predict, hr, hc, hmin, hmax, ha, hb, hc2, hd]

/-- C2: for a `rescaled`-decorated regressor with `constrain = True`,
after fitting on training labels `y`, every value returned by the
decorated `predict` lies within `[min(y), max(y)]`, whatever the
`rescale` flag is. -/
theorem C2_rescaled_constrain_clamps {α : Type} (sqrt : ℚ → ℚ)
    (orig_predict : α → List ℚ) (self : RescaledRegressor) (X Xnew : α)
    (y : List ℚ) (hc : self.constrain = true) (hy : y ≠ []) :
    ∃ lo hi out,
      py_min y = some lo ∧ py_max y = some hi ∧
      rescaled_predict orig_predict
        (rescaled_fit sqrt orig_predict self X y) Xnew = some out ∧
      ∀ v ∈ out, lo ≤ v ∧ v ≤ hi := by
  obtain ⟨x, xs, rfl⟩ := List.exists_cons_of_ne_nil hy
  have hflags := rescaled_fit_flags sqrt orig_predict self X (x :: xs)
  have hmm := rescaled_fit_y_min_max sqrt orig_predict self X (x :: xs) hc
  have hlomem := foldl_min_mem xs x
  have hlohi : xs.foldl min x ≤ xs.foldl max x := by
    rcases List.mem_cons.mp hlomem with h1 | h1
    · rw [h1]
      exact init_le_foldl_max xs x
    · exact mem_le_foldl_max xs x _ h1
  refine ⟨xs.foldl min x, xs.foldl max x, ?_⟩
  obtain ⟨out, hout, hb⟩ := rescaled_predict_constrain_mem orig_predict
    (rescaled_fit sqrt orig_predict self X (x :: xs)) Xnew
    (xs.foldl min x) (xs.foldl max x)
    (by rw [hflags.1]; exact hc)
    (by rw [hmm.1]; rfl)
    (by rw [hmm.2]; rfl)
    hlohi
    (by
      intro hr
      have hr' : self.rescale = true := by rw [← hflags.2]; exact hr
      obtain ⟨h1, h2, h3, h4⟩ :=
        rescaled_fit_rescale_stats sqrt orig_predict self X (x :: xs) hr'
      exact ⟨⟨_, h1⟩, ⟨_, h2⟩, ⟨_, h3⟩, ⟨_, h4⟩⟩)
  exact ⟨out, rfl, rfl, hout, hb⟩

/-- C2 witness: with `constrain = True` and `rescale = False`, fitting on
labels with min 0 and max 10 and then predicting an input whose raw
prediction is 15 returns exactly 10; and the clamp bound of the theorem
holds at this instance. -/
theorem C2_rescaled_constrain_clamps_witness :
    rescaled_predict (fun b : Bool => if b then [15] else [3])
        (rescaled_fit (fun q => q) (fun b : Bool => if b then [15] else [3])
          (rescaled_init true false) false [0, 10]) true = some [10] ∧
    (∃ lo hi out,
      py_min [0, 10] = some lo ∧ py_max [0, 10] = some hi ∧
      rescaled_predict (fun b : Bool => if b then [15] else [3])
        (rescaled_fit (fun q => q) (fun b : Bool => if b then [15] else [3])
          (rescaled_init true false) false [0, 10]) true = some out ∧
      ∀ v ∈ out, lo ≤ v ∧ v ≤ hi) := by
  constructor
  · simp [rescaled_predict, rescaled_fit, rescaled_init, py_min, py_max]
    norm_num
  · exact C2_rescaled_constrain_clamps (fun q => q)
      (fun b : Bool => if b then [15] else [3]) (rescaled_init true false)
      false true [0, 10] rfl (by simp)

/-- The mean of a nonempty constant list is that constant. -/
theorem np_mean_const (l : List ℚ) (c : ℚ) (hne : l ≠ [])
    (h : ∀ v ∈ l, v = c) : np_mean l = c := by
  have hlen : (l.length : ℚ) ≠ 0 :=
    Nat.cast_ne_zero.mpr (by simpa [List.length_eq_zero] using hne)
  rw [np_mean, List.sum_eq_card_nsmul l c h, nsmul_eq_mul]
  field_simp

/-- The population variance of a nonempty constant list is zero. -/
theorem np_var_const (l : List ℚ) (c : ℚ) (hne : l ≠ [])
    (h : ∀ v ∈ l, v = c) : np_var l = 0 := by
  have hm := np_mean_const l c hne h
  rw [np_var]
  have hz : (l.map (fun x => (x - np_mean l) ^ 2)).sum = 0 := by
    apply List.sum_eq_zero
    intro x hx
    simp only [List.mem_map] at hx
    obtain ⟨v, hv, rfl⟩ := hx
    rw [h v hv, hm]
    ring
  rw [hz, zero_div]

/-- C10: for a `rescaled`-decorated regressor fitted with
`rescale = True`, the decorated `predict` divides the raw predictions by
the recorded training-prediction standard deviation with no zero guard;
when the training predictions recorded at fit time are all equal, that
recorded standard deviation is exactly zero, so the division-by-zero
branch is reached. -/
theorem C10_rescale_division_by_zero {α : Type} (sqrt : ℚ → ℚ)
    (orig_predict : α → List ℚ) (self : RescaledRegressor) (X Xnew : α)
    (y : List ℚ) (c : ℚ)
    (hr : self.rescale = true) (hcon : self.constrain = false)
    (hsqrt : sqrt 0 = 0)
    (hne : orig_predict X ≠ [])
    (hconst : ∀ v ∈ orig_predict X, v = c) :
    (rescaled_fit sqrt orig_predict self X y).yhat_sd = some 0 ∧
    rescaled_predict orig_predict (rescaled_fit sqrt orig_predict self X y)
        Xnew =
      some ((orig_predict Xnew).map
        (fun r => (r - c) / 0 * np_std sqrt y + np_mean y)) := by
  obtain ⟨h1, h2, h3, h4⟩ :=
    rescaled_fit_rescale_stats sqrt orig_predict self X y hr
  have hsd : np_std sqrt (orig_predict X) = 0 := by
    rw [np_std, np_var_const (orig_predict X) c hne hconst, hsqrt]
  have hmean : np_mean (orig_predict X) = c :=
    np_mean_const (orig_predict X) c hne hconst
  have hflags := rescaled_fit_flags sqrt orig_predict self X y
  have hcon' : (rescaled_fit sqrt orig_predict self X y).constrain = false := by
    rw [hflags.1]; exact hcon
  have hr' : (rescaled_fit sqrt orig_predict self X y).rescale = true := by
    rw [hflags.2]; exact hr
  constructor
  · rw [h2, hsd]
  · simp [rescaled_predict, hr', hcon', h1, h2, h3, h4, hsd, hmean]

/-- C10 witness: fitting with `rescale = True` on an input whose training
predictions are the constant list `[7, 7]` records a zero standard
deviation, and predicting then computes the division-by-zero rescale
formula. -/
theorem C10_rescale_division_by_zero_witness :
    (rescaled_fit Rat.sqrt (fun _ : Unit => [7, 7])
        (rescaled_init false true) () [1, 2]).yhat_sd = some 0 ∧
    rescaled_predict (fun _ : Unit => [7, 7])
        (rescaled_fit Rat.sqrt (fun _ : Unit => [7, 7])
          (rescaled_init false true) () [1, 2]) () =
      some (([7, 7] : List ℚ).map
        (fun r => (r - 7) / 0 * np_std Rat.sqrt [1, 2] + np_mean [1, 2])) :=
  C10_rescale_division_by_zero Rat.sqrt (fun _ : Unit => [7, 7])
    (rescaled_init false true) () () [1, 2] 7 rfl rfl
    (by norm_num) (by simp)
    (by intro v hv; fin_cases hv <;> rfl)

/-- Appending to an absolute path keeps it absolute. -/
theorem isabs_append (a b : String) (h : isabs a = true) :
    isabs (a ++ b) = true := by
  rw [isabs, beq_iff_eq] at h
  rw [isabs, beq_iff_eq, String.data_append]
  cases hd : a.data with
  | nil => rw [hd] at h; simp at h
  | cons c t =>
    rw [hd] at h
    simp only [List.head?_cons, Option.some.injEq] at h
    simp [h]

/-- A path that starts with a slash has a positive leading-slash count. -/
theorem leading_slashes_pos (data : List Char) (h : data.head? = some '/') :
    1 ≤ leading_slashes data := by
  rw [leading_slashes, if_pos h]
  split_ifs <;> norm_num

/-- A string built from at least one leading slash is absolute. -/
theorem isabs_mk_replicate (k : Nat) (hk : 1 ≤ k) (J : List Char) :
    isabs ⟨List.replicate k '/' ++ J⟩ = true := by
  obtain ⟨m, rfl⟩ : ∃ m, k = m + 1 := ⟨k - 1, by omega⟩
  rw [isabs]
  simp [List.replicate_succ]

/-- A string built from at least one leading slash is not empty. -/
theorem mk_replicate_ne_empty (k : Nat) (hk : 1 ≤ k) (J : List Char) :
    ((⟨List.replicate k '/' ++ J⟩ : String) == "") = false := by
  obtain ⟨m, rfl⟩ : ∃ m, k = m + 1 := ⟨k - 1, by omega⟩
  rw [beq_eq_false_iff_ne]
  intro e
  have hdata : (⟨List.replicate (m + 1) '/' ++ J⟩ : String).data =
      ("" : String).data := by rw [e]
  simp [List.replicate_succ] at hdata

/-- `normpath` of an absolute path is absolute. -/
theorem isabs_normpath (s : String) (h : isabs s = true) :
    isabs (normpath s) = true := by
  have hd : s.data.head? = some '/' := by rwa [isabs, beq_iff_eq] at h
  have hne : (s == "") = false := by
    rw [beq_eq_false_iff_ne]
    intro e
    subst e
    simp at hd
  have hk : 1 ≤ leading_slashes s.data := leading_slashes_pos s.data hd
  rw [normpath]
  simp only [hne, Bool.false_eq_true, if_false]
  rw [mk_replicate_ne_empty _ hk _]
  simp only [Bool.false_eq_true, if_false]
  exact isabs_mk_replicate _ hk _

/-- C5 counterexample: an absolute input path is returned exactly as
given, with no normalization applied, so the returned path is not in
general a normalized path as the claim states: for the existing absolute
path `/a/./b` the function returns `/a/./b`, whose normalization is the
different string `/a/b`. -/
theorem C5_counterexample :
    locate_file (fun _ => true) "/a/./b" "/base" = Except.ok "/a/./b" ∧
    normpath "/a/./b" = "/a/b" ∧
    ("/a/./b" : String) ≠ "/a/b" := by
  refine ⟨by decide, by decide, by decide⟩

/-- C5 (amended): for every file path and absolute base directory, the
file-locate operation returns the empty string when the input path is
empty; otherwise it resolves the path — a relative path is joined to the
base directory and normalized, an absolute path is used as-is without
re-normalization — to an absolute path, returns that path when it exists,
and raises an ENOENT I/O error with message "File does not exist" when it
does not. -/
theorem C5_locate_file (path_exists : String → Bool) (fp cd : String)
    (hcd : isabs cd = true) :
    (fp = "" → locate_file path_exists fp cd = .ok "") ∧
    (fp ≠ "" →
      ∃ p, p = (if isabs fp then fp else normpath (path_join cd fp)) ∧
        isabs p = true ∧
        (path_exists p = true → locate_file path_exists fp cd = .ok p) ∧
        (path_exists p = false →
          locate_file path_exists fp cd =
            .error (PyErr.ioError 2 "File does not exist" p))) := by
  constructor
  · intro he
    subst he
    rfl
  · intro hfp
    have hfp' : (fp == "") = false := by
      rw [beq_eq_false_iff_ne]
      exact hfp
    refine ⟨if isabs fp then fp else normpath (path_join cd fp),
      rfl, ?_, ?_, ?_⟩
    · cases hab : isabs fp with
      | true => simp [hab]
      | false =>
        simp only [hab, Bool.false_eq_true, if_false]
        apply isabs_normpath
        rw [path_join, hab]
        simp only [Bool.false_eq_true, if_false]
        by_cases h2 : (cd == "" || cd.data.getLast? == some '/') = true
        · rw [if_pos h2]
          exact isabs_append cd fp hcd
        · rw [if_neg h2]
          exact isabs_append (cd ++ "/") fp (isabs_append cd "/" hcd)
    · intro hex
      simp [locate_file, hfp', hex]
    · intro hnex
      simp [locate_file, hfp', hnex]

/-- C5 witness: a relative path joined to an absolute base directory,
with a filesystem on which the resolved path exists. -/
theorem C5_locate_file_witness :
    ∃ p, p = (if isabs "data/train.jsonl" then "data/train.jsonl"
              else normpath (path_join "/base" "data/train.jsonl")) ∧
      isabs p = true ∧
      ((fun s => s == "/base/data/train.jsonl") p = true →
        locate_file (fun s => s == "/base/data/train.jsonl")
          "data/train.jsonl" "/base" = .ok p) ∧
      ((fun s => s == "/base/data/train.jsonl") p = false →
        locate_file (fun s => s == "/base/data/train.jsonl")
          "data/train.jsonl" "/base" =
          .error (PyErr.ioError 2 "File does not exist" p)) :=
  (C5_locate_file (fun s => s == "/base/data/train.jsonl")
    "data/train.jsonl" "/base" (by decide)).2 (by decide)

/-- C7 witness: the frame property at a concrete classifier learner with
an unseen test label `"b"`. -/
theorem C7_train_and_score_preserves_label_dict_witness :
    (train_and_score (fun _ _ => ([] : List Nat)) (fun _ _ _ => (0 : ℚ))
        (fun _ _ _ => (0 : ℚ)) ⟨true, ["a"], [("a", 0)]⟩ ⟨["a"]⟩
        ⟨["a", "b"]⟩ "accuracy").1 =
      (⟨true, ["a"], [("a", 0)]⟩ : Learner String) ∧
    (train_and_score (fun _ _ => ([] : List Nat)) (fun _ _ _ => (0 : ℚ))
        (fun _ _ _ => (0 : ℚ)) ⟨true, ["a"], [("a", 0)]⟩ ⟨["a"]⟩
        ⟨["a", "b"]⟩ "accuracy").1.label_dict =
      (⟨true, ["a"], [("a", 0)]⟩ : Learner String).label_dict :=
  C7_train_and_score_preserves_label_dict (fun _ _ => ([] : List Nat))
    (fun _ _ _ => (0 : ℚ)) (fun _ _ _ => (0 : ℚ))
    ⟨true, ["a"], [("a", 0)]⟩ ⟨["a"]⟩ ⟨["a", "b"]⟩ "accuracy"

/-- C8 witness: the filter description of `split` at the concrete
splitter of the claim's example. -/
theorem C8_filtered_leave_one_group_out_split_witness :
    (FilteredLeaveOneGroupOut.split
        { keep := ["A", "C"], example_ids := ["A", "B", "C", "D"],
          _warned := false }
        [([0, 1], [2, 3])]).1 =
      [([0, 1], [2, 3])].map (fun p =>
        (p.1.filter (flogo_keep_index
          { keep := ["A", "C"], example_ids := ["A", "B", "C", "D"],
            _warned := false }),
         p.2.filter (flogo_keep_index
          { keep := ["A", "C"], example_ids := ["A", "B", "C", "D"],
            _warned := false }))) :=
  C8_filtered_leave_one_group_out_split.1 String inferInstance
    { keep := ["A", "C"], example_ids := ["A", "B", "C", "D"],
      _warned := false }
    [([0, 1], [2, 3])]

/-- C9 witness: `fit_transform` at a concrete input returns the estimator
and differs from every data output, while `transform` densifies. -/
theorem C9_densifier_fit_transform_witness :
    Densifier.fit_transform Unit Unit (fun u => u) Densifier.mk () none =
      PipelineOutput.estimator Densifier.mk ∧
    Densifier.fit_transform Unit Unit (fun u => u) Densifier.mk () none ≠
      PipelineOutput.data () ∧
    Densifier.transform Unit Unit (fun u => u) Densifier.mk () = () :=
  ⟨(C9_densifier_fit_transform.1 Unit Unit (fun u => u) Densifier.mk ()
      none).1,
   (C9_densifier_fit_transform.1 Unit Unit (fun u => u) Densifier.mk ()
      none).2 (),
   C9_densifier_fit_transform.2 Unit Unit (fun u => u) Densifier.mk ()⟩
